import Mathlib

/-!
Shallow embedding of the tester-service test harness
(src/tester-service): the scenario data model, the four assertion
engines, the API observer's derived state transitions and policy
accumulation loop, and the scenario runner's evaluation pipeline.

Python dictionaries are embedded as structures whose fields are the keys
the code actually reads; a `dict.get(k)` that may be absent becomes an
`Option` field (`none` models both a missing key and an explicit `None`
value, which the code treats identically everywhere it matters here).
Python's f-string rendering of a possibly-`None` value is `pyStr`.
Python truthiness of such a value (`if prev_state:` on a string) is
`pyTruthy`: `None` and the empty string are falsy.
-/

/-- Python str() of an Optional[str] value: `None` renders as "None". -/
def pyStr : Option String → String
  | some s => s
  | none => "None"

/-- Python truthiness of an Optional[str] value: `None` and `""` are falsy. -/
def pyTruthy : Option String → Bool
  | some s => s != ""
  | none => false

/-- A record appended by `APIObserver._observe_states` to `state_history`
(api_client.py): keys `system`, `state`, `latency`, `retries`
(the `time` key is wall clock; capture order is list order here). -/
structure StateRecord where
  system : String
  state : Option String
  latency : Option Int := none
  retries : Option Int := none
deriving DecidableEq, Repr

/-- A policy execution record as read by the assertions and the observer
(keys `policyId`, `policyName`, `success`). -/
structure PolicyRec where
  policyId : Option String := none
  policyName : Option String := none
  success : Option Bool := none
deriving DecidableEq, Repr

/-- An event captured by `KafkaObserver` (kafka_listener.py). `eventType`
and `eventId` are the dict keys of those names; `event_Type` models the
distinct dict key `"event Type"` (with a space) that
`assert_no_duplicate_events` looks up, a key no producer in the codebase
writes. -/
structure CapturedEvent where
  eventType : Option String := none
  eventId : Option String := none
  event_Type : Option String := none
deriving DecidableEq, Repr

/-! ## Event assertions (assertions/event_assertions.py) -/

/-- `EventAssertion.assert_event_count`: exact count of events whose
`eventType` equals the expected type. -/
def assert_event_count (events : List CapturedEvent) (event_type : Option String)
    (expected_count : Nat) : Bool × String :=
  let actual_count := (events.filter (fun e => e.eventType == event_type)).length
  if actual_count == expected_count then
    (true, "✅ Event '" ++ pyStr event_type ++ "' count: " ++ toString expected_count)
  else
    (false, "❌ Event '" ++ pyStr event_type ++ "' expected " ++ toString expected_count
      ++ ", got " ++ toString actual_count)

/-- `EventAssertion.assert_no_duplicate_events`: collects the `eventId`s of
events whose `"event Type"` key (note the space — `event_Type` here) equals
the type, then passes iff they are pairwise distinct. -/
def assert_no_duplicate_events (events : List CapturedEvent)
    (event_type : Option String) : Bool × String :=
  let event_ids := (events.filter
    (fun e => e.event_Type == event_type && e.eventId.isSome)).filterMap (·.eventId)
  if event_ids.Nodup then
    (true, "✅ No duplicate '" ++ pyStr event_type ++ "' events")
  else
    (false, "❌ Found duplicate '" ++ pyStr event_type ++ "' events")

/-! ## Policy assertions (assertions/policy_assertions.py) -/

/-- The match test used by all three policy assertions:
`exec.get('policyId') == policy_id or exec.get('policyName') == policy_id`. -/
def policyMatches (policy_id : Option String) (e : PolicyRec) : Bool :=
  e.policyId == policy_id || e.policyName == policy_id

/-- `PolicyAssertion.assert_policy_fired`. -/
def assert_policy_fired (policy_executions : List PolicyRec)
    (policy_id : Option String) : Bool × String :=
  if policy_executions.any (policyMatches policy_id) then
    (true, "✅ Policy '" ++ pyStr policy_id ++ "' was triggered")
  else
    (false, "❌ Policy '" ++ pyStr policy_id ++ "' was not triggered")

/-- `PolicyAssertion.assert_policy_not_fired`. -/
def assert_policy_not_fired (policy_executions : List PolicyRec)
    (policy_id : Option String) : Bool × String :=
  if policy_executions.any (policyMatches policy_id) then
    (false, "❌ Policy '" ++ pyStr policy_id ++ "' was triggered (unexpected)")
  else
    (true, "✅ Policy '" ++ pyStr policy_id ++ "' was not triggered (as expected)")

/-- `PolicyAssertion.assert_policy_success`: filter matching executions;
empty → "not found" failure; otherwise pass iff every matching record's
`success` value (defaulting to `False` when absent) is truthy. -/
def assert_policy_success (policy_executions : List PolicyRec)
    (policy_id : Option String) : Bool × String :=
  let executions := policy_executions.filter (policyMatches policy_id)
  if executions.isEmpty then
    (false, "❌ Policy '" ++ pyStr policy_id ++ "' not found")
  else if executions.all (fun e => e.success.getD false) then
    (true, "✅ Policy '" ++ pyStr policy_id ++ "' executed successfully")
  else
    (false, "❌ Policy '" ++ pyStr policy_id ++ "' had failures")

/-! ## State assertions (assertions/state_assertions.py) -/

/-- `StateAssertion.assert_no_illegal_state`: first snapshot whose state is
in the fixed forbidden list fails the assertion. -/
def assert_no_illegal_state : List StateRecord → Bool × String
  | [] => (true, "✅ No illegal states detected")
  | r :: rest =>
    if r.state ∈ [some "UNKNOWN", some "ERROR", some "INVALID"] then
      (false, "❌ Illegal state found: " ++ pyStr r.state)
    else
      assert_no_illegal_state rest

/-- `StateAssertion.assert_final_state`: restrict the history to one system,
fail on an empty restriction, otherwise compare the last snapshot's state. -/
def assert_final_state (state_history : List StateRecord) (system : String)
    (expected_state : String) : Bool × String :=
  let system_states := state_history.filter (fun r => r.system == system)
  match system_states.getLast? with
  | none => (false, "❌ No state history for " ++ system)
  | some last =>
    if last.state == some expected_state then
      (true, "✅ Final state is " ++ expected_state)
    else
      (false, "❌ Expected final state " ++ expected_state ++ ", got " ++ pyStr last.state)

/-! ## Metrics assertions (assertions/metrics_assertions.py) -/

/-- `MetricsAssertion.assert_threshold`: the operator-table lookup of the
source, as a chain over the six recognized operator strings; an
unrecognized operator short-circuits to a failure. Metric values are
embedded as rationals. -/
def assert_threshold (metric_name : String) (actual_value : ℚ) (operator : String)
    (threshold_value : ℚ) : Bool × String :=
  let result? : Option Bool :=
    if operator == "<" then some (decide (actual_value < threshold_value))
    else if operator == "<=" then some (decide (actual_value ≤ threshold_value))
    else if operator == ">" then some (decide (actual_value > threshold_value))
    else if operator == ">=" then some (decide (actual_value ≥ threshold_value))
    else if operator == "==" then some (actual_value == threshold_value)
    else if operator == "!=" then some (actual_value != threshold_value)
    else none
  match result? with
  | none => (false, "❌ Invalid operator: " ++ operator)
  | some result =>
    if result then
      (true, "✅ " ++ metric_name ++ ": " ++ toString actual_value ++ " " ++ operator
        ++ " " ++ toString threshold_value)
    else
      (false, "❌ " ++ metric_name ++ ": " ++ toString actual_value ++ " NOT " ++ operator
        ++ " " ++ toString threshold_value)

/-! ## API observer (observers/api_client.py) -/

/-- Loop body of `APIObserver.get_state_transitions`: walk the history,
track the previous state seen for the system, and record
`"{prev} -> {current}"` when the previous state is truthy and the current
state differs from it. -/
def state_transitions_go (system : String) (prev : Option String) :
    List StateRecord → List String
  | [] => []
  | r :: rest =>
    if r.system == system then
      let current := r.state
      (if pyTruthy prev && current != prev then
        [pyStr prev ++ " -> " ++ pyStr current]
      else []) ++ state_transitions_go system current rest
    else
      state_transitions_go system prev rest

/-- `APIObserver.get_state_transitions` over an explicit `state_history`. -/
def get_state_transitions (state_history : List StateRecord) (system : String) :
    List String :=
  state_transitions_go system none state_history

/-- One fetch-and-merge iteration of `APIObserver._observe_policies`:
each fetched record is appended to the accumulated `policy_executions`
only if it is not already present. Polymorphic in the record type (the
source compares whole dicts by equality). -/
def observe_policies_iteration {α : Type} [DecidableEq α] (fetched : List α)
    (policy_executions : List α) : List α :=
  fetched.foldl (fun acc e => if e ∈ acc then acc else acc ++ [e]) policy_executions

/-! ## Action executor (orchestrator/action_executor.py) -/

/-- A scenario action dict, with the keys the orchestrator and the chaos
path read: `type`, `system`, `fault`, `duration` (chaos duration, a
number defaulting to 60 when absent). REST-specific keys are carried for
completeness. -/
structure ActionDict where
  type : Option String := none
  method : Option String := none
  endpoint : Option String := none
  system : Option String := none
  fault : Option String := none
  duration : Option Nat := none
deriving DecidableEq, Repr

/-- The payload `_execute_chaos` builds: `systemType`, `faultType`,
`durationSeconds`. -/
structure ChaosPayload where
  systemType : Option String
  faultType : Option String
  durationSeconds : Nat
deriving DecidableEq, Repr

/-- The REST action dict `_execute_chaos` delegates to `_execute_rest`:
always `{'type': 'REST', 'method': 'POST', 'endpoint': '/api/chaos/inject',
'payload': ...}`. -/
structure ChaosRestAction where
  type : String
  method : String
  endpoint : String
  payload : ChaosPayload
deriving DecidableEq, Repr

/-- `ActionExecutor._execute_chaos`, up to the point where it hands the
constructed REST action to `_execute_rest` (the network call itself is not
modelled; the claim is about the request that is sent). -/
def execute_chaos (action : ActionDict) : ChaosRestAction :=
  { type := "REST"
    method := "POST"
    endpoint := "/api/chaos/inject"
    payload :=
      { systemType := action.system
        faultType := action.fault
        durationSeconds := action.duration.getD 60 } }

/-! ## Scenario model and runner (orchestrator/scenario_loader.py,
orchestrator/scenario_runner.py) -/

/-- One entry of `expectations['states']` as read by `_extract_systems`. -/
structure StateExpectation where
  system : Option String := none
deriving DecidableEq, Repr

/-- One entry of `expectations['policies']` as read by
`_evaluate_expectations`. -/
structure PolicyExpectation where
  policy_id : Option String := none
  should_fire : Option Bool := none
deriving DecidableEq, Repr

/-- One entry of `expectations['events']` as read by
`_evaluate_expectations`. -/
structure EventExpectation where
  type : Option String := none
  count : Option Nat := none
deriving DecidableEq, Repr

/-- One entry of `expectations['metrics']`. The runner never reads these;
the fields follow the metrics engine's vocabulary. -/
structure MetricExpectation where
  metric : Option String := none
  operator : Option String := none
  value : Option Int := none
deriving DecidableEq, Repr

/-- The scenario's `expectations` mapping; a category key being present in
the dict is a field being `some`. -/
structure Expectations where
  states : Option (List StateExpectation) := none
  policies : Option (List PolicyExpectation) := none
  events : Option (List EventExpectation) := none
  metrics : Option (List MetricExpectation) := none
deriving DecidableEq, Repr

/-- The `Scenario` dataclass (scenario_loader.py). -/
structure Scenario where
  name : String
  description : String := ""
  timeout : Nat := 120
  preconditions : List String := []
  actions : List ActionDict := []
  expectations : Expectations := {}
  validation : List String := []
deriving DecidableEq, Repr

/-- The data captured by the observers as it stands when
`_evaluate_expectations` reads it: `api_observer.get_collected_data()`'s
`state_history` and `policy_executions`, plus
`kafka_observer.get_all_events()` (the other collected lists are not read
by evaluation). -/
structure Collected where
  state_history : List StateRecord := []
  policy_executions : List PolicyRec := []
  kafka_events : List CapturedEvent := []
deriving DecidableEq, Repr

/-- One entry of the `results` list built by `_evaluate_expectations`:
`{'type': ..., 'passed': ..., 'message': ...}`. -/
structure Verdict where
  type : String
  passed : Bool
  message : String
deriving DecidableEq, Repr

/-- `ScenarioRunner._extract_systems`: the set of truthy `system` values of
CHAOS actions and of `states` expectations (Python builds a `set`, then
`filter(None, ...)` drops `None` and `""`; the set is embedded as a
first-occurrence deduplicated list, which fixes the unspecified iteration
order). -/
def extract_systems (scenario : Scenario) : List String :=
  let raw : List (Option String) :=
    (scenario.actions.filter (fun a => a.type == some "CHAOS")).map (·.system)
      ++ (scenario.expectations.states.getD []).map (·.system)
  raw.foldl
    (fun acc o =>
      match o with
      | some s => if s == "" || s ∈ acc then acc else acc ++ [s]
      | none => acc)
    []

/-- `ScenarioRunner._evaluate_expectations`: one `assert_no_illegal_state`
verdict per extracted system, then one fired/not-fired verdict per
`policies` entry when that key is present, then one event-count verdict per
`events` entry when that key is present. No other category is evaluated. -/
def evaluate_expectations (scenario : Scenario) (d : Collected) : List Verdict :=
  let systems := extract_systems scenario
  let stateResults := systems.map (fun _ =>
    let v := assert_no_illegal_state d.state_history
    Verdict.mk "state" v.1 v.2)
  let policyResults :=
    match scenario.expectations.policies with
    | none => []
    | some pes => pes.map (fun pe =>
        let v :=
          if pe.should_fire.getD true then
            assert_policy_fired d.policy_executions pe.policy_id
          else
            assert_policy_not_fired d.policy_executions pe.policy_id
        Verdict.mk "policy" v.1 v.2)
  let eventResults :=
    match scenario.expectations.events with
    | none => []
    | some ees => ees.map (fun ee =>
        let v := assert_event_count d.kafka_events ee.type (ee.count.getD 1)
        Verdict.mk "event" v.1 v.2)
  stateResults ++ policyResults ++ eventResults

/-- The runner's `TestResult` dataclass. `duration` is the elapsed wall
clock, threaded through as a parameter. -/
structure TestResult where
  scenario_name : String
  status : String
  duration : Nat
  assertions_passed : Nat
  assertions_failed : Nat
  details : List Verdict ⊕ String
deriving DecidableEq, Repr

/-- The body of `ScenarioRunner.run_scenario` from the `try` statement
onward (the pre-`try` prologue is `run_scenario_with_startup` below). The
observers' side effects are the `Collected` data as it stands at
evaluation time; `err` is the exception, if any, escaping the staged
`try` body (action execution, settling, stopping observers, evaluation).
The `except` arm ignores everything but the scenario name, the elapsed
time and the error text; otherwise the verdicts of
`_evaluate_expectations` are counted and the status is PASSED iff no
verdict failed. `details` is `{'assertions': results}` on the left,
`{'error': str(e)}` on the right. -/
def run_scenario (scenario : Scenario) (d : Collected) (err : Option String)
    (duration : Nat) : TestResult :=
  match err with
  | some e =>
    { scenario_name := scenario.name
      status := "FAILED"
      duration := duration
      assertions_passed := 0
      assertions_failed := 1
      details := Sum.inr e }
  | none =>
    let results := evaluate_expectations scenario d
    let passed := (results.filter (fun r => r.passed)).length
    let failed := (results.filter (fun r => !r.passed)).length
    { scenario_name := scenario.name
      status := if failed == 0 then "PASSED" else "FAILED"
      duration := duration
      assertions_passed := passed
      assertions_failed := failed
      details := Sum.inl results }

/-- `ScenarioRunner.run_scenario` including its pre-`try` prologue:
`kafka_observer.start_observing()`, `_extract_systems` and
`asyncio.create_task(...)` run before the `try` statement, so an
exception raised there (for example the Kafka consumer constructor
failing to reach a broker inside `start_observing`) propagates uncaught
to the caller — only exceptions from the staged `try` body are converted
into a FAILED `TestResult`. `startup_err` is the exception, if any,
raised by that prologue. -/
def run_scenario_with_startup (scenario : Scenario) (d : Collected)
    (startup_err : Option String) (err : Option String) (duration : Nat) :
    Except String TestResult :=
  match startup_err with
  | some e => Except.error e
  | none => Except.ok (run_scenario scenario d err duration)

/-! ## Spec-side reference definitions -/

/-- Modelled from the spec's transition rule, for comparison with
`get_state_transitions`: one `"P -> C"` entry per pair of consecutive
states that differ. -/
def specPairTransitions : List String → List String
  | a :: b :: rest =>
    (if a ≠ b then [a ++ " -> " ++ b] else []) ++ specPairTransitions (b :: rest)
  | _ => []

/-- The per-system state sequence of a history, in capture order (the
sequence `get_state_transitions` walks). -/
def sysStates (state_history : List StateRecord) (system : String) :
    List (Option String) :=
  (state_history.filter (fun r => r.system == system)).map (·.state)

/-! ## Shared helper lemmas -/

/-- Two strings differing at some character position are distinct. -/
theorem string_ne_of_data_ne (s1 s2 : String) (i : Nat)
    (hne : s1.data[i]? ≠ s2.data[i]?) : s1 ≠ s2 :=
  fun h => hne (by rw [h])

/-- One insertion step of the policy accumulation preserves distinctness. -/
theorem policy_insert_nodup {α : Type} [DecidableEq α] (acc : List α) (e : α)
    (h : acc.Nodup) : (if e ∈ acc then acc else acc ++ [e]).Nodup := by
  by_cases he : e ∈ acc
  · simpa [he]
  · simp [he, List.nodup_append, h]

/-- One fetch-and-merge iteration preserves distinctness. -/
theorem observe_policies_iteration_nodup {α : Type} [DecidableEq α]
    (fetched : List α) :
    ∀ acc : List α, acc.Nodup → (observe_policies_iteration fetched acc).Nodup := by
  induction fetched with
  | nil => intro acc h; exact h
  | cons e t ih =>
    intro acc h
    simp only [observe_policies_iteration, List.foldl_cons]
    exact ih _ (policy_insert_nodup acc e h)

/-! ## The claims -/

/-- C3: `assert_no_duplicate_events` is claimed to fail exactly when the
eventIds of the captured events of the given type are not pairwise
distinct. On the failing input — two captured events of eventType
"CircuitOpened" carrying the same eventId "e-1" — the eventIds of that
type are duplicated, yet the assertion passes, because the source filters
on the malformed dict key `'event Type'` (with a space) that no captured
event carries. -/
theorem C3_duplicate_events_undetected :
    (assert_no_duplicate_events
      [{ eventType := some "CircuitOpened", eventId := some "e-1" },
       { eventType := some "CircuitOpened", eventId := some "e-1" }]
      (some "CircuitOpened")).1 = true ∧
    ¬ ((([{ eventType := some "CircuitOpened", eventId := some "e-1" },
          { eventType := some "CircuitOpened", eventId := some "e-1" }] :
          List CapturedEvent).filter
            (fun e => e.eventType == some "CircuitOpened")).filterMap
          (·.eventId)).Nodup := by
  constructor
  · rfl
  · decide

/-- C6 counterexample: `run_scenario` does not always return a
`TestResult`. The observer-start prologue runs before the `try`
statement, so when it raises — here the Kafka consumer failing with
"NoBrokersAvailable" on a concrete scenario — the exception propagates
uncaught to the caller instead of yielding any `TestResult`. -/
theorem C6_counterexample :
    run_scenario_with_startup { name := "payment-timeout" } {}
        (some "NoBrokersAvailable") none 0 =
      Except.error "NoBrokersAvailable" ∧
    (run_scenario_with_startup { name := "payment-timeout" } {}
        (some "NoBrokersAvailable") none 0).isOk = false :=
  ⟨rfl, rfl⟩

/-- C6 amended: an exception raised by the pre-`try` prologue (Kafka
observer start, system extraction, task creation) propagates uncaught
out of `run_scenario`; when the prologue succeeds the runner always
returns a `TestResult`, and whenever an exception `e` escapes the staged
`try` body (action execution, settling, stopping observers, evaluation)
that result has status FAILED, `assertions_passed = 0`,
`assertions_failed = 1` and the error text in its details — for every
scenario and regardless of whatever data the observers had collected. -/
theorem C6_amended_exception_behavior (scenario : Scenario) (d : Collected)
    (e : String) (err : Option String) (duration : Nat) :
    run_scenario_with_startup scenario d (some e) err duration = Except.error e ∧
    (run_scenario_with_startup scenario d none err duration).isOk = true ∧
    run_scenario_with_startup scenario d none (some e) duration =
      Except.ok
        { scenario_name := scenario.name
          status := "FAILED"
          duration := duration
          assertions_passed := 0
          assertions_failed := 1
          details := Sum.inr e } :=
  ⟨rfl, rfl, rfl⟩

/-- C9: `assert_threshold` with an operator string outside the six
recognized ones returns `passed = false` with the invalid-operator
message, for every metric name and every pair of values; and for each of
the six recognized operators it passes exactly when the corresponding
numeric comparison of actual against threshold holds. -/
theorem C9_threshold_operator_semantics (metric_name : String)
    (actual threshold : ℚ) (operator : String) :
    (operator ∉ ["<", "<=", ">", ">=", "==", "!="] →
      assert_threshold metric_name actual operator threshold =
        (false, "❌ Invalid operator: " ++ operator)) ∧
    ((assert_threshold metric_name actual "<" threshold).1 = decide (actual < threshold)) ∧
    ((assert_threshold metric_name actual "<=" threshold).1 = decide (actual ≤ threshold)) ∧
    ((assert_threshold metric_name actual ">" threshold).1 = decide (actual > threshold)) ∧
    ((assert_threshold metric_name actual ">=" threshold).1 = decide (actual ≥ threshold)) ∧
    ((assert_threshold metric_name actual "==" threshold).1 = (actual == threshold)) ∧
    ((assert_threshold metric_name actual "!=" threshold).1 = (actual != threshold)) := by
  refine ⟨?_, ?_, ?_, ?_, ?_, ?_, ?_⟩
  · intro h
    simp only [List.mem_cons, List.not_mem_nil, or_false, not_or] at h
    obtain ⟨h1, h2, h3, h4, h5, h6⟩ := h
    simp [assert_threshold, beq_iff_eq, h1, h2, h3, h4, h5, h6]
  · cases h : decide (actual < threshold) <;> simp [assert_threshold, h]
  · cases h : decide (actual ≤ threshold) <;> simp [assert_threshold, h]
  · cases h : decide (actual > threshold) <;> simp [assert_threshold, h]
  · cases h : decide (actual ≥ threshold) <;> simp [assert_threshold, h]
  · cases h : actual == threshold <;> simp [assert_threshold, h]
  · cases h : actual != threshold <;> simp [assert_threshold, h]

/-- Witness for C9 at the unknown operator "~" and at "<" on 1 and 2. -/
theorem C9_witness :
    ("~" ∉ ["<", "<=", ">", ">=", "==", "!="] ∧
      assert_threshold "retry_count" 1 "~" 2 = (false, "❌ Invalid operator: ~")) ∧
    (assert_threshold "retry_count" 1 "<" 2).1 = decide ((1 : ℚ) < 2) :=
  ⟨⟨by decide,
    (C9_threshold_operator_semantics "retry_count" 1 2 "~").1 (by decide)⟩,
   (C9_threshold_operator_semantics "retry_count" 1 2 "~").2.1⟩

/-- C10: for every CHAOS action with no `duration` key, `_execute_chaos`
hands `_execute_rest` a POST to `/api/chaos/inject` whose payload carries
`durationSeconds = 60` alongside the action's `system` and `fault`
values. -/
theorem C10_chaos_default_duration (action : ActionDict)
    (h : action.duration = none) :
    execute_chaos action =
      { type := "REST"
        method := "POST"
        endpoint := "/api/chaos/inject"
        payload :=
          { systemType := action.system
            faultType := action.fault
            durationSeconds := 60 } } := by
  simp [execute_chaos, h]

/-- Witness for C10 on a concrete CHAOS action without a duration. -/
theorem C10_witness :
    execute_chaos
        { type := some "CHAOS", system := some "payments", fault := some "latency" } =
      { type := "REST"
        method := "POST"
        endpoint := "/api/chaos/inject"
        payload :=
          { systemType := some "payments"
            faultType := some "latency"
            durationSeconds := 60 } } :=
  C10_chaos_default_duration
    { type := some "CHAOS", system := some "payments", fault := some "latency" } rfl

/-- A scenario whose expectations mapping has only the `metrics` key. -/
def metricsOnlyScenario : Scenario :=
  { name := "metrics-only"
    expectations := { metrics := some [{ metric := some "latency_ms" }] } }

/-- C1 counterexample: the `metrics` expectation category is present in
this scenario, yet evaluation produces no verdict at all — the metrics
engine is never invoked by `_evaluate_expectations`. -/
theorem C1_counterexample :
    metricsOnlyScenario.expectations.metrics.isSome = true ∧
    evaluate_expectations metricsOnlyScenario {} = [] :=
  ⟨rfl, rfl⟩

/-- C8: the accumulated `policy_executions` history never holds a record
twice: each fetch-and-merge iteration of `_observe_policies` preserves
pairwise distinctness of the accumulated list, and hence after any
sequence of poll iterations starting from the fresh empty history the
accumulated records are pairwise distinct. (Polymorphic in the record
type, since the source deduplicates whole records by equality.) -/
theorem C8_policy_executions_nodup (α : Type) [DecidableEq α] :
    (∀ (fetched acc : List α), acc.Nodup →
      (observe_policies_iteration fetched acc).Nodup) ∧
    (∀ batches : List (List α),
      (batches.foldl
        (fun acc fetched => observe_policies_iteration fetched acc) []).Nodup) := by
  constructor
  · intro fetched acc h
    exact observe_policies_iteration_nodup fetched acc h
  · intro batches
    have hgen : ∀ (bs : List (List α)) (acc : List α), acc.Nodup →
        (bs.foldl (fun acc fetched => observe_policies_iteration fetched acc) acc).Nodup := by
      intro bs
      induction bs with
      | nil => intro acc h; exact h
      | cons b t ih =>
        intro acc h
        exact ih _ (observe_policies_iteration_nodup b acc h)
    exact hgen batches [] List.nodup_nil

/-- Witness for C8: merging a batch that repeats one record into an empty
history leaves a duplicate-free history. -/
theorem C8_witness :
    (observe_policies_iteration
      [({ policyId := some "p1", success := some true } : PolicyRec),
       { policyId := some "p1", success := some true }] []).Nodup :=
  (C8_policy_executions_nodup PolicyRec).1 _ [] List.nodup_nil

/-- Filtering a mapped verdict list by category commutes with the map. -/
theorem filter_verdict_map {α : Type} (f : α → Verdict) (p : Verdict → Bool)
    (l : List α) : (l.map f).filter p = (l.filter (fun x => p (f x))).map f :=
  List.filter_map f l

/-- C1 amended: evaluation invokes engines per expectation entry only for
the `policies` and `events` categories (one verdict per entry when the
key is present, none when absent); `states` expectations contribute
verdicts only indirectly, as one state-engine verdict per extracted
system identifier; and `metrics` expectations are never evaluated — no
verdict ever carries the metrics category. -/
theorem C1_amended_category_counts (scenario : Scenario) (d : Collected) :
    ((evaluate_expectations scenario d).filter (fun v => v.type == "state")).length =
      (extract_systems scenario).length ∧
    ((evaluate_expectations scenario d).filter (fun v => v.type == "policy")).length =
      (scenario.expectations.policies.getD []).length ∧
    ((evaluate_expectations scenario d).filter (fun v => v.type == "event")).length =
      (scenario.expectations.events.getD []).length ∧
    ((evaluate_expectations scenario d).filter (fun v => v.type == "metric")).length = 0 := by
  rcases hp : scenario.expectations.policies with _ | pes <;>
    rcases he : scenario.expectations.events with _ | ees <;>
      refine ⟨?_, ?_, ?_, ?_⟩ <;>
        simp [evaluate_expectations, hp, he, List.filter_append, filter_verdict_map]

/-- C2: for every scenario whose actions are one REST action
(POST /api/chaos/inject) followed by one WAIT, and whose expectations are
exactly `events: [{type: "CircuitOpened", count: 1}]`, if the captured
event log at evaluation time contains exactly one event of eventType
"CircuitOpened", then `run_scenario` (completing without an escaping
exception) returns a TestResult with status PASSED, one passed assertion
and zero failed assertions. -/
theorem C2_end_to_end_circuit_opened (scenario : Scenario) (a1 a2 : ActionDict)
    (d : Collected) (duration : Nat)
    (hact : scenario.actions = [a1, a2])
    (h1t : a1.type = some "REST") (h1m : a1.method = some "POST")
    (h1e : a1.endpoint = some "/api/chaos/inject") (h2t : a2.type = some "WAIT")
    (hexp : scenario.expectations =
      { events := some [{ type := some "CircuitOpened", count := some 1 }] })
    (hev : (d.kafka_events.filter
      (fun e => e.eventType == some "CircuitOpened")).length = 1) :
    (run_scenario scenario d none duration).status = "PASSED" ∧
    (run_scenario scenario d none duration).assertions_passed = 1 ∧
    (run_scenario scenario d none duration).assertions_failed = 0 := by
  have hsys : extract_systems scenario = [] := by
    simp [extract_systems, hact, hexp, h1t, h2t]
  have hres : evaluate_expectations scenario d =
      [Verdict.mk "event" true ("✅ Event '" ++ pyStr (some "CircuitOpened")
        ++ "' count: " ++ toString 1)] := by
    simp [evaluate_expectations, hsys, hexp, assert_event_count, hev]
  simp [run_scenario, hres]

/-- The concrete end-to-end scenario of the spec: inject a fault over
REST, wait, expect exactly one CircuitOpened event. -/
def c2Scenario : Scenario :=
  { name := "chaos-opens-circuit"
    actions :=
      [{ type := some "REST", method := some "POST",
         endpoint := some "/api/chaos/inject" },
       { type := some "WAIT" }]
    expectations :=
      { events := some [{ type := some "CircuitOpened", count := some 1 }] } }

/-- The captured data for the C2 witness: one CircuitOpened event. -/
def c2Data : Collected :=
  { kafka_events := [{ eventType := some "CircuitOpened", eventId := some "evt-1" }] }

/-- Witness for C2 on the concrete scenario and event log. -/
theorem C2_witness :
    (run_scenario c2Scenario c2Data none 5).status = "PASSED" ∧
    (run_scenario c2Scenario c2Data none 5).assertions_passed = 1 ∧
    (run_scenario c2Scenario c2Data none 5).assertions_failed = 0 :=
  C2_end_to_end_circuit_opened c2Scenario _ _ c2Data 5 rfl rfl rfl rfl rfl rfl (by decide)

/-- The per-system state sequence distributes over cons. -/
theorem sysStates_cons (r : StateRecord) (t : List StateRecord) (system : String) :
    sysStates (r :: t) system =
      if r.system == system then r.state :: sysStates t system
      else sysStates t system := by
  by_cases h : r.system == system <;> simp [sysStates, h]

/-- With a truthy previous state and all remaining captured states truthy,
the source's transition walk agrees with the spec's pairwise rule. -/
theorem transitions_go_eq_spec (system : String) :
    ∀ (history : List StateRecord) (a : String), a ≠ "" →
    (∀ x ∈ sysStates history system, ∃ s, x = some s ∧ s ≠ "") →
    state_transitions_go system (some a) history =
      specPairTransitions (a :: (sysStates history system).map pyStr) := by
  intro history
  induction history with
  | nil => intro a ha hall; simp [state_transitions_go, sysStates, specPairTransitions]
  | cons r t ih =>
    intro a ha hall
    rw [sysStates_cons] at hall ⊢
    by_cases hr : r.system == system
    · simp only [hr, if_true] at hall ⊢
      obtain ⟨b, hb, hbne⟩ := hall r.state (List.mem_cons_self _ _)
      have hallT : ∀ x ∈ sysStates t system, ∃ s, x = some s ∧ s ≠ "" :=
        fun x hx => hall x (List.mem_cons_of_mem _ hx)
      simp only [state_transitions_go, hr, if_true]
      rw [hb, ih b hbne hallT]
      simp only [List.map_cons, pyStr, specPairTransitions]
      rcases eq_or_ne a b with hab | hab
      · subst hab; simp [pyTruthy, ha]
      · simp [pyTruthy, ha, hab, Ne.symm hab]
    · simp only [hr, if_false] at hall ⊢
      simp only [state_transitions_go, hr, if_false]
      exact ih a ha hall

/-- From the initial `prev = None`, the walk emits nothing for the first
matching snapshot and then agrees with the spec's pairwise rule, provided
every captured state for the system is truthy. -/
theorem transitions_go_none_eq_spec (system : String) :
    ∀ history : List StateRecord,
    (∀ x ∈ sysStates history system, ∃ s, x = some s ∧ s ≠ "") →
    state_transitions_go system none history =
      specPairTransitions ((sysStates history system).map pyStr) := by
  intro history
  induction history with
  | nil => intro hall; simp [state_transitions_go, sysStates, specPairTransitions]
  | cons r t ih =>
    intro hall
    rw [sysStates_cons] at hall ⊢
    by_cases hr : r.system == system
    · simp only [hr, if_true] at hall ⊢
      obtain ⟨b, hb, hbne⟩ := hall r.state (List.mem_cons_self _ _)
      have hallT : ∀ x ∈ sysStates t system, ∃ s, x = some s ∧ s ≠ "" :=
        fun x hx => hall x (List.mem_cons_of_mem _ hx)
      simp only [state_transitions_go, hr, if_true]
      rw [hb, transitions_go_eq_spec system t b hbne hallT]
      simp [pyTruthy, pyStr]
    · simp only [hr, if_false] at hall ⊢
      simp only [state_transitions_go, hr, if_false]
      exact ih hall

/-- C4 counterexample: a history whose two consecutive snapshots for
system "s" carry the differing states `""` and `"A"` yields no transition
at all — the differing pair produces no entry, because the source's
`if prev_state` truthiness test rejects the empty string. -/
theorem C4_counterexample :
    sysStates
        [{ system := "s", state := some "" }, { system := "s", state := some "A" }]
        "s" = [some "", some "A"] ∧
    get_state_transitions
        [{ system := "s", state := some "" }, { system := "s", state := some "A" }]
        "s" = [] :=
  ⟨rfl, rfl⟩

/-- C4 amended: provided every captured state value for the system is
truthy (a non-empty string, never `None`), the derived transition
sequence is exactly one `"P -> C"` entry per pair of consecutive
snapshots of that system whose states differ and no entry for equal
consecutive states — the source walk coincides with the spec's pairwise
rule on the per-system state sequence. -/
theorem C4_transitions_eq_spec_on_truthy (state_history : List StateRecord)
    (system : String)
    (h : ∀ x ∈ sysStates state_history system, ∃ s, x = some s ∧ s ≠ "") :
    get_state_transitions state_history system =
      specPairTransitions ((sysStates state_history system).map pyStr) :=
  transitions_go_none_eq_spec system state_history h

/-- Witness for C4 on the spec's example: per-system states
[A, A, B, B, C] yield exactly the transitions [A -> B, B -> C]. -/
theorem C4_witness :
    get_state_transitions
        [{ system := "s", state := some "A" }, { system := "s", state := some "A" },
         { system := "s", state := some "B" }, { system := "s", state := some "B" },
         { system := "s", state := some "C" }] "s" = ["A -> B", "B -> C"] :=
  (C4_transitions_eq_spec_on_truthy _ "s" (by decide)).trans (by decide)

/-- C5: `assert_policy_success` returns the "not found" failure when no
execution record matches the policy id (by policyId or policyName),
returns the distinct "had failures" failure when some matching record
reports `success = false`, and passes exactly when at least one record
matches and every matching record reports `success = true`. -/
theorem C5_policy_success_cases (policy_executions : List PolicyRec)
    (policy_id : Option String) :
    (policy_executions.filter (policyMatches policy_id) = [] →
      assert_policy_success policy_executions policy_id =
        (false, "❌ Policy '" ++ pyStr policy_id ++ "' not found")) ∧
    ((∃ e ∈ policy_executions.filter (policyMatches policy_id),
        e.success = some false) →
      assert_policy_success policy_executions policy_id =
        (false, "❌ Policy '" ++ pyStr policy_id ++ "' had failures")) ∧
    ((assert_policy_success policy_executions policy_id).1 = true ↔
      (policy_executions.filter (policyMatches policy_id) ≠ [] ∧
        ∀ e ∈ policy_executions.filter (policyMatches policy_id),
          e.success = some true)) ∧
    (("❌ Policy '" ++ pyStr policy_id ++ "' not found" : String) ≠
      "❌ Policy '" ++ pyStr policy_id ++ "' had failures") := by
  refine ⟨?_, ?_, ?_, ?_⟩
  · intro h
    simp [assert_policy_success, h]
  · rintro ⟨e, he, hef⟩
    have hne : (policy_executions.filter (policyMatches policy_id)).isEmpty = false := by
      rcases hfe : policy_executions.filter (policyMatches policy_id) with _ | ⟨x, xs⟩
      · rw [hfe] at he; cases he
      · rfl
    have hall : (policy_executions.filter (policyMatches policy_id)).all
        (fun e => e.success.getD false) = false :=
      List.all_eq_false.mpr ⟨e, he, by simp [hef]⟩
    simp [assert_policy_success, hne, hall]
  · constructor
    · intro h
      by_cases hemp : policy_executions.filter (policyMatches policy_id) = []
      · simp [assert_policy_success, hemp] at h
      · refine ⟨hemp, ?_⟩
        intro e he
        by_contra hnt
        have hfalse : e.success.getD false = false := by
          rcases hsucc : e.success with _ | b
          · rfl
          · cases b
            · rfl
            · exact absurd hsucc hnt
        have hall : (policy_executions.filter (policyMatches policy_id)).all
            (fun e => e.success.getD false) = false :=
          List.all_eq_false.mpr ⟨e, he, by simp [hfalse]⟩
        have hne : (policy_executions.filter (policyMatches policy_id)).isEmpty = false := by
          rcases hfe : policy_executions.filter (policyMatches policy_id) with _ | ⟨x, xs⟩
          · exact absurd hfe hemp
          · rfl
        simp [assert_policy_success, hne, hall] at h
    · rintro ⟨hne, hall⟩
      have hisem : (policy_executions.filter (policyMatches policy_id)).isEmpty = false := by
        rcases hfe : policy_executions.filter (policyMatches policy_id) with _ | ⟨x, xs⟩
        · exact absurd hfe hne
        · rfl
      have hall' : (policy_executions.filter (policyMatches policy_id)).all
          (fun e => e.success.getD false) = true :=
        List.all_eq_true.mpr (fun e he => by rw [hall e he]; rfl)
      simp [assert_policy_success, hisem, hall']
  · intro h
    have hlen := congrArg String.length h
    rw [String.length_append, String.length_append,
      String.length_append, String.length_append] at hlen
    have h11 : ("' not found" : String).length = 11 := rfl
    have h14 : ("' had failures" : String).length = 14 := rfl
    omega

/-- Witness for C5: an unmatched id fails as "not found"; a matched id
with one failing execution fails as "had failures"; a matched id whose
only execution succeeded passes. -/
theorem C5_witness :
    assert_policy_success [] (some "p1") =
      (false, "❌ Policy '" ++ pyStr (some "p1") ++ "' not found") ∧
    assert_policy_success
        [{ policyId := some "p1", success := some false }] (some "p1") =
      (false, "❌ Policy '" ++ pyStr (some "p1") ++ "' had failures") ∧
    (assert_policy_success
        [{ policyId := some "p1", success := some true }] (some "p1")).1 = true := by
  refine ⟨?_, ?_, ?_⟩
  · exact (C5_policy_success_cases [] (some "p1")).1 rfl
  · exact (C5_policy_success_cases
      [{ policyId := some "p1", success := some false }] (some "p1")).2.1
      ⟨{ policyId := some "p1", success := some false }, by decide, rfl⟩
  · exact ((C5_policy_success_cases
      [{ policyId := some "p1", success := some true }] (some "p1")).2.2.1).mpr
      ⟨by decide, by decide⟩

/-- C7: `assert_final_state` fails with the "no state history" message
when the history holds no snapshot for the system, fails with the
"expected final state" message when the last snapshot for that system (in
capture order) carries a different state, passes when it matches — and
the two failure messages are distinct for all argument values. -/
theorem C7_final_state_cases (state_history : List StateRecord)
    (system expected_state : String) :
    (state_history.filter (fun r => r.system == system) = [] →
      assert_final_state state_history system expected_state =
        (false, "❌ No state history for " ++ system)) ∧
    (∀ last,
      (state_history.filter (fun r => r.system == system)).getLast? = some last →
      (last.state ≠ some expected_state →
        assert_final_state state_history system expected_state =
          (false, "❌ Expected final state " ++ expected_state ++ ", got "
            ++ pyStr last.state)) ∧
      (last.state = some expected_state →
        assert_final_state state_history system expected_state =
          (true, "✅ Final state is " ++ expected_state))) ∧
    (∀ st : Option String,
      ("❌ No state history for " ++ system : String) ≠
        "❌ Expected final state " ++ expected_state ++ ", got " ++ pyStr st) := by
  refine ⟨?_, ?_, ?_⟩
  · intro h
    simp [assert_final_state, h]
  · intro last hlast
    constructor
    · intro hne
      simp [assert_final_state, hlast, hne]
    · intro heq
      simp [assert_final_state, hlast, heq]
  · intro st
    apply string_ne_of_data_ne _ _ 2
    have h1 : ("❌ No state history for " ++ system).data[2]? = some 'N' := by
      rw [String.data_append, List.getElem?_append_left (by decide)]
      decide
    have h2 : ("❌ Expected final state " ++ expected_state ++ ", got "
        ++ pyStr st).data[2]? = some 'E' := by
      rw [show "❌ Expected final state " ++ expected_state ++ ", got " ++ pyStr st =
          "❌ Expected final state " ++ (expected_state ++ (", got " ++ pyStr st)) by
        simp [String.append_assoc]]
      rw [String.data_append, List.getElem?_append_left (by decide)]
      decide
    rw [h1, h2]
    decide

/-- Witness for C7: an empty history fails as "no state history"; a
history ending in the expected state passes; one ending elsewhere fails
with the other message. -/
theorem C7_witness :
    assert_final_state [] "orders" "OPEN" =
      (false, "❌ No state history for " ++ "orders") ∧
    assert_final_state [{ system := "orders", state := some "CLOSED" },
        { system := "orders", state := some "OPEN" }] "orders" "OPEN" =
      (true, "✅ Final state is " ++ "OPEN") ∧
    assert_final_state [{ system := "orders", state := some "CLOSED" }] "orders" "OPEN" =
      (false, "❌ Expected final state " ++ "OPEN" ++ ", got "
        ++ pyStr (some "CLOSED")) := by
  refine ⟨?_, ?_, ?_⟩
  · exact (C7_final_state_cases [] "orders" "OPEN").1 rfl
  · exact ((C7_final_state_cases [{ system := "orders", state := some "CLOSED" },
      { system := "orders", state := some "OPEN" }] "orders" "OPEN").2.1
      { system := "orders", state := some "OPEN" } (by decide)).2 rfl
  · exact ((C7_final_state_cases [{ system := "orders", state := some "CLOSED" }]
      "orders" "OPEN").2.1 { system := "orders", state := some "CLOSED" }
      (by decide)).1 (by decide)
